import Mathlib

/-!
Verification of the lazy feature-pipeline-and-composition engine
(`feature_tools/base_feature.py`, class `BaseFeatures`).

A tabular dataset is modelled by `DataFrame`: an ordered list of column
names plus rows of integer cells.  The mutable object state of a
`BaseFeatures` instance is modelled by `BFState`; its user-overridable
hooks (`transform`, `impute`, `create_target`, the injected custom
transformer) are modelled by a `Hooks` record passed to every operation
that the Python object would dispatch on.  In-place mutation performed
by a hook is modelled by the hook returning the table it leaves behind,
together with either a raised error or its Python return value; this
also captures a hook that mutates and then raises.  Exceptions are
modelled with `Except Err`.  The operations `createOutcomeColumn` and
`dataCompute` additionally return ghost invocation counters that record
how many times each user hook was called; the counters are pure
instrumentation and influence nothing else.
-/

/-- Errors raised by the engine.  `typeError`/`keyError` mirror Python
`TypeError`/`KeyError`; `userError` models an arbitrary exception raised
inside a user-supplied hook.  Messages avoid quotation characters but
keep the information content of the source messages. -/
inductive Err where
  | typeError (msg : String)
  | keyError (msg : String)
  | userError (msg : String)
deriving DecidableEq

deriving instance DecidableEq for Except

/-- A table: ordered column names and rows of integer cells. -/
structure DataFrame where
  cols : List String
  rows : List (List Int)
deriving DecidableEq

/-- Value of a cell of `row` in the column named `c`, columns being
labelled by `cols` (first occurrence of a duplicated label wins, and a
default of `0` stands for the out-of-domain lookups that the guarded
callers never perform). -/
def getCell (cols : List String) (row : List Int) (c : String) : Int :=
  match cols.findIdx? (fun x => x == c) with
  | some i => row.getD i 0
  | none => 0

/-- Possible return value of the `create_target` hook: Python `None`, a
string, or any other value (such as `42`). -/
inductive PyVal where
  | none
  | str (s : String)
  | other
deriving DecidableEq

/-- Possible return value of a custom transformer: Python `None`, a list
of strings, or any other (non-list, non-None) value. -/
inductive TransRet where
  | noneRet
  | list (names : List String)
  | nonList
deriving DecidableEq

/-- Message of `TypeError("Incompatible types. ...")` from `__add__`. -/
def typeMismatchCompositionErr : Err :=
  .typeError "Incompatible types. Both object should inherit from BaseFeatures"

/-- Message of `TypeError("Meta-columns don't match. ...")` from `__add__`. -/
def incompatibleMetaErr : Err :=
  .typeError "Meta-columns do not match. Can not add two objects."

/-- Message of `KeyError("Duplicate feature columns. ...")` from `__add__`. -/
def duplicateFeatureErr : Err :=
  .keyError "Duplicate feature columns. Consider adding suffix."

/-- Message of the `KeyError` raised by `_check_columns`. -/
def missingColMsg (c : String) : String :=
  "Column " ++ c ++ " does not exist in data."

/-- Message of the `TypeError` raised by `_create_outcome_column`. -/
def invalidTargetTypeErr : Err :=
  .typeError "Outcome column should be string or None."

/-- Message of the `KeyError` raised by `_create_outcome_column`. -/
def missingTargetErr (c : String) : Err :=
  .keyError ("Could not find " ++ c ++ " in the data")

/-- Message of the `TypeError` raised by `_invoke_custom_transformer`. -/
def customTransformerRetErr : Err :=
  .typeError "Customer transformer should return list of new feature names"

/-- Error of a `pandas.merge` whose `on=` key names a column absent from
one of the two frames (pandas raises `KeyError`). -/
def mergeKeyErr : Err :=
  .keyError "merge key not found in both frames"

/-- Error of a `.loc` column selection naming an absent column. -/
def locKeyErr : Err :=
  .keyError "selection column not found in data"

/-- The mutable state of a `BaseFeatures` object.  Field names follow
the Python attributes; `has_custom_transformer` records whether the
`custom_transformer` attribute is non-`None` (the callable itself is
supplied through `Hooks`). -/
structure BFState where
  base_feature_columns : List String
  feature_suffix : String
  meta_columns : List String
  exclude_columns : List String
  outcome_column_cache : Option (List String)
  has_custom_transformer : Bool
  all_data : DataFrame
  additional_features : List String
  clean_data : Option DataFrame
deriving DecidableEq

/-- The user-overridable hooks of a `BaseFeatures` object.  Each hook
returns the table (and for `transform` also the additional-features
list) it leaves committed, plus either its Python return value or a
raised error; `create_target` is the value returned by the
`create_target` override. -/
structure Hooks where
  custom_transformer : DataFrame → DataFrame × Except Err TransRet
  transform : DataFrame × List String → (DataFrame × List String) × Option Err
  impute : DataFrame → DataFrame × Option Err
  create_target : PyVal

/-- Hooks of the plain `BaseFeatures` class: `transform`, `impute` and
`create_target` are all `pass` (identity, return `None`). -/
def defaultHooks : Hooks where
  custom_transformer := fun df => (df, .ok .noneRet)
  transform := fun x => (x, none)
  impute := fun df => (df, none)
  create_target := .none

/-- Ghost counters: how many times each user hook ran during an operation. -/
structure Counts where
  transform_calls : Nat
  impute_calls : Nat
  target_calls : Nat
deriving DecidableEq

/-- Embedding of `BaseFeatures._check_columns`: the first name of
`col_list` missing from the table raises a `KeyError` naming it; the
available columns are printed for diagnostics just before the raise,
modelled by the second component. -/
def checkColumns (df : DataFrame) (col_list : List String) :
    Except Err Unit × Option (List String) :=
  match col_list.find? (fun c => decide (c ∉ df.cols)) with
  | some c => (.error (.keyError (missingColMsg c)), some df.cols)
  | none => (.ok (), none)

/-- The `data` argument of the constructor: an in-memory table or a
value that is neither a string path nor a table (the string/CSV branch
performs file input and is outside this model). -/
inductive DataSrc where
  | frame (df : DataFrame)
  | notTabular

/-- Embedding of `BaseFeatures.__init__` together with
`BaseFeatures._load_validate`: normalizes the source, copies it, and
validates `base_feature_columns` then `meta_columns`; the second
component is the diagnostic print of available columns emitted on a
failed check.  No pipeline stage hook is invoked (the function does not
even receive `Hooks`). -/
def initBF (data : DataSrc) (feature_columns : List String)
    (feature_suffix : String) (meta_columns : List String)
    (exclude_columns : List String) :
    Except Err BFState × Option (List String) :=
  match data with
  | .notTabular => (.error (.typeError "Data should be either string or pd.DataFrame."), none)
  | .frame df =>
    match checkColumns df feature_columns with
    | (.error e, diag) => (.error e, diag)
    | (.ok _, _) =>
      match checkColumns df meta_columns with
      | (.error e, diag) => (.error e, diag)
      | (.ok _, _) =>
        (.ok { base_feature_columns := feature_columns
               feature_suffix := feature_suffix
               meta_columns := meta_columns
               exclude_columns := exclude_columns
               outcome_column_cache := none
               has_custom_transformer := false
               all_data := df
               additional_features := []
               clean_data := none }, none)

/-- Embedding of `BaseFeatures._create_outcome_column` (also the
`outcome_column` property).  On a cache miss the cache is first set to
`[]`, then the `create_target` hook is invoked once; a non-string,
non-None return raises `TypeError`, a string naming an absent column
raises `KeyError`, and a present column is cached as a one-element
list.  The third component counts hook invocations. -/
def createOutcomeColumn (hook : PyVal) (s : BFState) :
    Except Err (List String) × BFState × Nat :=
  match s.outcome_column_cache with
  | some oc => (.ok oc, s, 0)
  | none =>
    let s1 := { s with outcome_column_cache := some [] }
    match hook with
    | .none => (.ok [], s1, 1)
    | .str c =>
      if c ∈ s1.all_data.cols then
        (.ok [c], { s1 with outcome_column_cache := some [c] }, 1)
      else
        (.error (missingTargetErr c), s1, 1)
    | .other => (.error invalidTargetTypeErr, s1, 1)

/-- Embedding of `BaseFeatures.set_custom_transformer`: stores the
transformer and sets `_clean_data = None`. -/
def setCustomTransformer (s : BFState) : BFState :=
  { s with has_custom_transformer := true, clean_data := none }

/-- Embedding of `BaseFeatures._invoke_custom_transformer`.  The
transformer receives a copy of the table; the `data_accessor` context
manager assigns that (possibly mutated) copy back to `_all_data` in a
`finally` clause, hence the copy is committed on every path, including
the paths on which an exception propagates. -/
def invokeCustomTransformer (ct : DataFrame → DataFrame × Except Err TransRet)
    (s : BFState) : Except Err Unit × BFState :=
  let r := ct s.all_data
  let data := r.1
  match r.2 with
  | .error e => (.error e, { s with all_data := data })
  | .ok .noneRet => (.ok (), { s with all_data := data })
  | .ok .nonList => (.error customTransformerRetErr, { s with all_data := data })
  | .ok (.list names) =>
    match (checkColumns data names).1 with
    | .error e => (.error e, { s with all_data := data })
    | .ok _ =>
      (.ok (), { s with all_data := data,
                        additional_features := s.additional_features ++ names })

/-- Embedding of the `raw_feature_columns` property: base features plus
additional features, filtered by `exclude_columns` when that list is
non-empty (Python truthiness of the list). -/
def rawFeatureColumns (s : BFState) : List String :=
  let all_features := s.base_feature_columns ++ s.additional_features
  if s.exclude_columns.isEmpty then all_features
  else all_features.filter (fun c => decide (c ∉ s.exclude_columns))

/-- Embedding of the `feature_columns` property: `raw_feature_columns`
with the suffix appended to each name when the suffix is non-empty
(Python truthiness of the string). -/
def featureColumns (s : BFState) : List String :=
  let all_features := rawFeatureColumns s
  if s.feature_suffix = "" then all_features
  else all_features.map (fun c => c ++ s.feature_suffix)

/-- Application of the rename dictionary built by `dict(zip(...))`:
the last binding of a key wins, names outside the dictionary are kept. -/
def applyMapper (m : List (String × String)) (c : String) : String :=
  match m.reverse.find? (fun p => p.1 == c) with
  | some p => p.2
  | none => c

/-- Embedding of `DataFrame.rename(columns=mapper)`. -/
def renameCols (m : List (String × String)) (df : DataFrame) : DataFrame :=
  { df with cols := df.cols.map (applyMapper m) }

/-- Embedding of the column selection `df.loc[:, sel]`: raises
`KeyError` when a requested name is absent, otherwise returns the
selected columns in the requested order. -/
def projectCols (sel : List String) (df : DataFrame) : Except Err DataFrame :=
  if ∀ c ∈ sel, c ∈ df.cols then
    .ok { cols := sel, rows := df.rows.map (fun row => sel.map (fun c => getCell df.cols row c)) }
  else .error locKeyErr

/-- Embedding of `left.merge(right, on=key, how="inner")`: raises
`KeyError` when a key name is absent from either frame; otherwise the
result keeps all of the left columns followed by the non-key right
columns, suffixing colliding non-key names with `_x`/`_y` as pandas
does, and pairs every left row with every right row agreeing with it on
the key. -/
def mergeInner (l r : DataFrame) (key : List String) : Except Err DataFrame :=
  if (∀ c ∈ key, c ∈ l.cols) ∧ (∀ c ∈ key, c ∈ r.cols) then
    let rNonKey := r.cols.filter (fun c => decide (c ∉ key))
    let lcols := l.cols.map (fun c => if c ∉ key ∧ c ∈ r.cols then c ++ "_x" else c)
    let rcols := rNonKey.map (fun c => if c ∈ l.cols then c ++ "_y" else c)
    let rows := (l.rows.map (fun lr =>
      (r.rows.filter (fun rr =>
          decide (key.map (getCell l.cols lr) = key.map (getCell r.cols rr)))).map
        (fun rr => lr ++ rNonKey.map (getCell r.cols rr)))).flatten
    .ok { cols := lcols ++ rcols, rows := rows }
  else .error mergeKeyErr

/-- Stage 1 of the `data` property: the custom transformer when one is
set, otherwise the `transform` override hook (which receives the table
and the additional-features list it may mutate; its committed result is
stored on every path, mirroring in-place mutation of `self`). -/
def transformStage (h : Hooks) (s : BFState) : Except Err Unit × BFState :=
  if s.has_custom_transformer then invokeCustomTransformer h.custom_transformer s
  else
    let tr := h.transform (s.all_data, s.additional_features)
    let s1 := { s with all_data := tr.1.1, additional_features := tr.1.2 }
    match tr.2 with
    | some e => (.error e, s1)
    | none => (.ok (), s1)

/-- Stage 2 of the `data` property: the `impute` override hook; its
committed table is stored on every path, mirroring in-place mutation. -/
def imputeStage (h : Hooks) (s : BFState) : Except Err Unit × BFState :=
  let im := h.impute s.all_data
  let s2 := { s with all_data := im.1 }
  match im.2 with
  | some e => (.error e, s2)
  | none => (.ok (), s2)

/-- Embedding of the `data` property.  On a cache hit the memoized
clean view is returned unchanged; otherwise the stages run in source
order: transform (custom transformer if set, else the `transform`
override), impute, target resolution, rename via the suffix dictionary
on a copy of the table, projection to
`meta_columns + feature_columns + outcome_column` (the last term reads
the `outcome_column` property again, which is the second
`createOutcomeColumn` call below), and memoization of the projected
view.  The `Counts` component records how many times the
transform-stage hook, the impute hook and the `create_target` hook were
invoked. -/
def dataCompute (h : Hooks) (s : BFState) :
    Except Err DataFrame × BFState × Counts :=
  match s.clean_data with
  | some cd => (.ok cd, s, ⟨0, 0, 0⟩)
  | none =>
    match transformStage h s with
    | (.error e, s1) => (.error e, s1, ⟨1, 0, 0⟩)
    | (.ok _, s1) =>
      match imputeStage h s1 with
      | (.error e, s2) => (.error e, s2, ⟨1, 1, 0⟩)
      | (.ok _, s2) =>
        match createOutcomeColumn h.create_target s2 with
        | (.error e, s3, tc) => (.error e, s3, ⟨1, 1, tc⟩)
        | (.ok _, s3, tc) =>
          let temp := renameCols ((rawFeatureColumns s3).zip (featureColumns s3)) s3.all_data
          match createOutcomeColumn h.create_target s3 with
          | (.error e, s4, tc2) => (.error e, s4, ⟨1, 1, tc + tc2⟩)
          | (.ok oc, s4, tc2) =>
            match projectCols (s4.meta_columns ++ featureColumns s4 ++ oc) temp with
            | .error e => (.error e, s4, ⟨1, 1, tc + tc2⟩)
            | .ok cd => (.ok cd, { s4 with clean_data := some cd }, ⟨1, 1, tc + tc2⟩)

/-- The right operand of `__add__`: either another `BaseFeatures`
object or a value failing the `isinstance` check. -/
inductive RightOperand where
  | ofBaseFeatures (s : BFState)
  | notBaseFeatures

/-- Embedding of `BaseFeatures.__add__`.  The `isinstance` check comes
first; accessing `self.data` and `other.data` (for the length warning)
runs both pipelines and propagates their errors; then the meta-column
set check, the feature-column overlap check (written exactly as the
source set-difference comparison), the inner merge on
`self.meta_columns + self.outcome_column`, construction of the result
view on the merged table, and the monkey-patched copy of the resolved
target. -/
def addBF (lh rh : Hooks) (l : BFState) (other : RightOperand) : Except Err BFState :=
  match other with
  | .notBaseFeatures => .error typeMismatchCompositionErr
  | .ofBaseFeatures rs =>
    match dataCompute lh l with
    | (.error e, _, _) => .error e
    | (.ok ldf, l1, _) =>
      match dataCompute rh rs with
      | (.error e, _, _) => .error e
      | (.ok rdf, r1, _) =>
        if l1.meta_columns.toFinset ≠ r1.meta_columns.toFinset then
          .error incompatibleMetaErr
        else if (featureColumns l1).toFinset \ (featureColumns r1).toFinset ≠
            (featureColumns l1).toFinset then
          .error duplicateFeatureErr
        else
          let new_feature_columns := featureColumns l1 ++ featureColumns r1
          match createOutcomeColumn lh.create_target l1 with
          | (.error e, _, _) => .error e
          | (.ok oc, l2, _) =>
            match mergeInner ldf rdf (l2.meta_columns ++ oc) with
            | .error e => .error e
            | .ok merged =>
              match (initBF (.frame merged) new_feature_columns "" l2.meta_columns []).1 with
              | .error e => .error e
              | .ok obj =>
                match l2.outcome_column_cache with
                | none => .error (.typeError "NoneType object has no attribute copy")
                | some oc2 => .ok { obj with outcome_column_cache := some oc2 }

/-! Concrete fixtures used by the closed witnesses and counterexamples. -/

/-- Source table of the end-to-end scenario: four base features, two
meta columns, a target column `y`, one data row. -/
def dfScen : DataFrame :=
  { cols := ["f1", "f2", "f3", "f4", "m1", "m2", "y"]
    rows := [[1, 2, 3, 4, 5, 6, 0]] }

/-- Fresh feature view over `dfScen` with suffix `_a`. -/
def sScen : BFState :=
  { base_feature_columns := ["f1", "f2", "f3", "f4"]
    feature_suffix := "_a"
    meta_columns := ["m1", "m2"]
    exclude_columns := []
    outcome_column_cache := none
    has_custom_transformer := false
    all_data := dfScen
    additional_features := []
    clean_data := none }

/-- Hooks whose target builder returns the column name `y`. -/
def hooksScen : Hooks := { defaultHooks with create_target := .str "y" }

/-- The clean view the pipeline materializes for `sScen`. -/
def cleanScen : DataFrame :=
  { cols := ["m1", "m2", "f1_a", "f2_a", "f3_a", "f4_a", "y"]
    rows := [[5, 6, 1, 2, 3, 4, 0]] }

/-- State of `sScen` after the pipeline ran once. -/
def sScenPost : BFState :=
  { sScen with outcome_column_cache := some ["y"], clean_data := some cleanScen }

/-- Mutation a failing transformer performs before raising: a `junk`
column appended to the working copy. -/
def fBoom : DataFrame → DataFrame :=
  fun df => { cols := df.cols ++ ["junk"], rows := df.rows.map (fun r => r ++ [0]) }

/-- Custom transformer that adds a `junk` column to the working copy
and then raises. -/
def ctBoom : DataFrame → DataFrame × Except Err TransRet :=
  fun df => (fBoom df, .error (.userError "boom"))

/-- Hooks carrying the failing custom transformer `ctBoom`. -/
def hooksBoom : Hooks := { defaultHooks with custom_transformer := ctBoom }

/-- Fresh view over `dfScen` on which `set_custom_transformer` was called. -/
def sBoom : BFState := setCustomTransformer sScen

/-- A view state with a resolved target and accumulated additional
features, as left behind by a completed pipeline run. -/
def sC2 : BFState :=
  { sScenPost with additional_features := ["a"] }

/-- Left operand for the composition counterexample: table with meta
`m`, feature `f1` and target `y`. -/
def lC3 : BFState :=
  { base_feature_columns := ["f1"]
    feature_suffix := ""
    meta_columns := ["m"]
    exclude_columns := []
    outcome_column_cache := none
    has_custom_transformer := false
    all_data := { cols := ["m", "f1", "y"], rows := [[1, 10, 0]] }
    additional_features := []
    clean_data := none }

/-- Right operand for the composition counterexample: table with meta
`m`, feature `f2` and its own, differently named target `z`. -/
def rC3 : BFState :=
  { base_feature_columns := ["f2"]
    feature_suffix := ""
    meta_columns := ["m"]
    exclude_columns := []
    outcome_column_cache := none
    has_custom_transformer := false
    all_data := { cols := ["m", "f2", "z"], rows := [[1, 20, 1]] }
    additional_features := []
    clean_data := none }

/-- Hooks whose target builder returns the column name `z`. -/
def hooksZ : Hooks := { defaultHooks with create_target := .str "z" }

/-! Helper lemmas about the embedded operations. -/

/-- Memoization hit: when a clean view is cached, the `data` property
returns it, runs no hook, and leaves the state unchanged. -/
theorem dataCompute_cached (h : Hooks) (s : BFState) (cd : DataFrame)
    (hc : s.clean_data = some cd) :
    dataCompute h s = (.ok cd, s, ⟨0, 0, 0⟩) := by
  unfold dataCompute
  rw [hc]

/-- Target-cache hit: a resolved target is returned without invoking
the hook and without changing the state. -/
theorem createOutcomeColumn_cached (hook : PyVal) (s : BFState) (oc : List String)
    (hc : s.outcome_column_cache = some oc) :
    createOutcomeColumn hook s = (.ok oc, s, 0) := by
  unfold createOutcomeColumn
  rw [hc]

/-- The custom-transformer stage only rewrites the table and the
additional-features list. -/
theorem invokeCustomTransformer_fields (ct : DataFrame → DataFrame × Except Err TransRet)
    (s : BFState) :
    ∃ d a, (invokeCustomTransformer ct s).2 = { s with all_data := d, additional_features := a } := by
  unfold invokeCustomTransformer
  rcases ct s.all_data with ⟨d, r⟩
  rcases r with e | ret
  · exact ⟨d, s.additional_features, rfl⟩
  · rcases ret with _ | names | _
    · exact ⟨d, s.additional_features, rfl⟩
    · rcases hc : (checkColumns d names).1 with e | u
      · exact ⟨d, s.additional_features, by simp [hc]⟩
      · exact ⟨d, s.additional_features ++ names, by simp [hc]⟩
    · exact ⟨d, s.additional_features, rfl⟩

/-- The transform stage only rewrites the table and the
additional-features list. -/
theorem transformStage_fields (h : Hooks) (s : BFState) :
    ∃ d a, (transformStage h s).2 = { s with all_data := d, additional_features := a } := by
  unfold transformStage
  by_cases hcu : s.has_custom_transformer
  · rw [if_pos hcu]
    exact invokeCustomTransformer_fields h.custom_transformer s
  · rw [if_neg hcu]
    rcases h.transform (s.all_data, s.additional_features) with ⟨⟨d, a⟩, r⟩
    rcases r with _ | e
    · exact ⟨d, a, rfl⟩
    · exact ⟨d, a, rfl⟩

/-- The impute stage only rewrites the table. -/
theorem imputeStage_fields (h : Hooks) (s : BFState) :
    ∃ d, (imputeStage h s).2 = { s with all_data := d } := by
  unfold imputeStage
  rcases h.impute s.all_data with ⟨d, r⟩
  rcases r with _ | e
  · exact ⟨d, rfl⟩
  · exact ⟨d, rfl⟩

/-- Target resolution only rewrites the target cache. -/
theorem createOutcomeColumn_fields (hook : PyVal) (s : BFState) :
    ∃ oc, (createOutcomeColumn hook s).2.1 = { s with outcome_column_cache := oc } := by
  rcases hc : s.outcome_column_cache with _ | oc0
  · unfold createOutcomeColumn
    rw [hc]
    rcases hook with _ | c | _
    · exact ⟨some [], rfl⟩
    · by_cases hm : c ∈ s.all_data.cols
      · exact ⟨some [c], by simp [hm]⟩
      · exact ⟨some [], by simp [hm]⟩
    · exact ⟨some [], rfl⟩
  · refine ⟨some oc0, ?_⟩
    rw [createOutcomeColumn_cached hook s oc0 hc, ← hc]

/-- A fresh target cache means one hook invocation. -/
theorem createOutcomeColumn_miss_count (hook : PyVal) (s : BFState)
    (hc : s.outcome_column_cache = none) :
    (createOutcomeColumn hook s).2.2 = 1 := by
  unfold createOutcomeColumn
  rw [hc]
  rcases hook with _ | c | _
  · rfl
  · by_cases hm : c ∈ s.all_data.cols <;> simp [hm]
  · rfl

/-- A successful target resolution leaves exactly its result cached. -/
theorem createOutcomeColumn_ok_cache (hook : PyVal) (s : BFState) (oc : List String)
    (hk : (createOutcomeColumn hook s).1 = .ok oc) :
    ((createOutcomeColumn hook s).2.1).outcome_column_cache = some oc := by
  rcases hc : s.outcome_column_cache with _ | oc0
  · unfold createOutcomeColumn at hk ⊢
    rw [hc] at hk ⊢
    rcases hook with _ | c | _
    · simp only [Except.ok.injEq] at hk
      simp [← hk]
    · by_cases hm : c ∈ s.all_data.cols
      · simp only [hm, if_true, Except.ok.injEq] at hk
        simp [hm, ← hk]
      · simp [hm] at hk
    · simp at hk
  · rw [createOutcomeColumn_cached hook s oc0 hc] at hk ⊢
    simp only [Except.ok.injEq] at hk
    rw [hc, hk]

/-- A target resolved from a fresh cache is `[]` or a single name. -/
theorem createOutcomeColumn_ok_short (hook : PyVal) (s : BFState) (oc : List String)
    (hc : s.outcome_column_cache = none)
    (hk : (createOutcomeColumn hook s).1 = .ok oc) :
    oc.length ≤ 1 := by
  unfold createOutcomeColumn at hk
  rw [hc] at hk
  rcases hook with _ | c | _
  · simp only [Except.ok.injEq] at hk
    simp [← hk]
  · by_cases hm : c ∈ s.all_data.cols
    · simp only [hm, if_true, Except.ok.injEq] at hk
      simp [← hk]
    · simp [hm] at hk
  · simp at hk

/-- A successful column selection has exactly the requested columns. -/
theorem projectCols_ok_cols (sel : List String) (df d : DataFrame)
    (hk : projectCols sel df = .ok d) : d.cols = sel := by
  unfold projectCols at hk
  by_cases hm : ∀ c ∈ sel, c ∈ df.cols
  · rw [if_pos hm] at hk
    cases hk
    rfl
  · rw [if_neg hm] at hk
    cases hk


/-- Rename dictionary built by zipping a name list with its image:
names in the list map to their image, all others are untouched. -/
theorem applyMapper_zip (l : List String) (f : String → String) (x : String) :
    applyMapper (l.zip (l.map f)) x = if x ∈ l then f x else x := by
  have hz : l.zip (l.map f) = l.map (fun a => (a, f a)) := by
    induction l with
    | nil => rfl
    | cons a t ih => simp [ih]
  unfold applyMapper
  rw [hz, ← List.map_reverse, List.find?_map _ _]
  have hcomp : ((fun p : String × String => p.1 == x) ∘ fun a => (a, f a)) =
      fun a => a == x := rfl
  rw [hcomp]
  rcases hf : l.reverse.find? (fun a => a == x) with _ | y
  · have hx : x ∉ l := by
      intro hx
      have := List.find?_eq_none.mp hf x (List.mem_reverse.mpr hx)
      simp at this
    rw [if_neg hx]
    rfl
  · have hy : y = x := by
      have := List.find?_some hf
      simpa using this
    have hmem : x ∈ l := by
      have := List.mem_of_find?_eq_some hf
      rw [hy] at this
      exact List.mem_reverse.mp this
    subst hy
    rw [if_pos hmem]
    rfl

/-- Anatomy of a successful pipeline run from an uncomputed clean view:
the run memoizes exactly the projected view, calls the transform and
impute hooks once, calls the target hook `tc` times, leaves the
resolved target cached, and the clean view has exactly the projected
columns; from a fresh target cache, `tc = 1` and the target has at most
one name. -/
theorem dataCompute_ok_anatomy (h : Hooks) (s s2 : BFState) (cd : DataFrame) (c : Counts)
    (h1 : s.clean_data = none)
    (heq : dataCompute h s = (.ok cd, s2, c)) :
    ∃ oc tc,
      s2.clean_data = some cd ∧
      s2.outcome_column_cache = some oc ∧
      c = ⟨1, 1, tc⟩ ∧
      cd.cols = s2.meta_columns ++ featureColumns s2 ++ oc ∧
      (s.outcome_column_cache = none → tc = 1 ∧ oc.length ≤ 1) := by
  rcases ht : transformStage h s with ⟨tr, s1⟩
  rcases tr with e | u
  · unfold dataCompute at heq
    simp only [h1, ht] at heq
    simp at heq
  rcases hi : imputeStage h s1 with ⟨ir, s1i⟩
  rcases ir with e | u2
  · unfold dataCompute at heq
    simp only [h1, ht, hi] at heq
    simp at heq
  rcases ho1 : createOutcomeColumn h.create_target s1i with ⟨or1, s3, tc1⟩
  rcases or1 with e | oc1
  · unfold dataCompute at heq
    simp only [h1, ht, hi, ho1] at heq
    simp at heq
  have hcache3 : s3.outcome_column_cache = some oc1 := by
    have h0 := createOutcomeColumn_ok_cache h.create_target s1i oc1 (by rw [ho1])
    rw [ho1] at h0
    exact h0
  have hco2 := createOutcomeColumn_cached h.create_target s3 oc1 hcache3
  rcases hp : projectCols (s3.meta_columns ++ featureColumns s3 ++ oc1)
      (renameCols ((rawFeatureColumns s3).zip (featureColumns s3)) s3.all_data) with e | cd0
  · unfold dataCompute at heq
    simp only [h1, ht, hi, ho1, hco2, hp] at heq
    simp at heq
  unfold dataCompute at heq
  simp only [h1, ht, hi, ho1, hco2, hp] at heq
  simp only [Prod.mk.injEq, Except.ok.injEq] at heq
  obtain ⟨h_cd, h_s2, h_c⟩ := heq
  subst h_cd
  subst h_s2
  refine ⟨oc1, tc1 + 0, rfl, hcache3, h_c.symm, ?_, ?_⟩
  · exact projectCols_ok_cols _ _ _ hp
  · intro hfresh
    have hc1 : s1.outcome_column_cache = none := by
      obtain ⟨d, a, hfields⟩ := transformStage_fields h s
      rw [ht] at hfields
      have hs1 : s1 = { s with all_data := d, additional_features := a } := by
        simpa using hfields
      rw [hs1]
      exact hfresh
    have hc2 : s1i.outcome_column_cache = none := by
      obtain ⟨d, hfields⟩ := imputeStage_fields h s1
      rw [hi] at hfields
      have hs1i : s1i = { s1 with all_data := d } := by
        simpa using hfields
      rw [hs1i]
      exact hc1
    constructor
    · have := createOutcomeColumn_miss_count h.create_target s1i hc2
      rw [ho1] at this
      simpa using this
    · exact createOutcomeColumn_ok_short h.create_target s1i oc1 hc2 (by rw [ho1])

/-! Claims. -/

/-- Claim C1 (counterexample): a custom transformer that mutates its working
copy and then raises does not leave the canonical table as it was —
the mutated copy is swapped in by the accessor before the exception
propagates, so the claim that the canonical table is left exactly
unmodified on stage failure is false. -/
theorem atomic_rollback_counterexample :
    sBoom.clean_data = none ∧
    (dataCompute hooksBoom sBoom).1 = .error (.userError "boom") ∧
    ((dataCompute hooksBoom sBoom).2.1).all_data ≠ sBoom.all_data := by
  decide

/-- Claim C1 (amended): when the custom transformer raises, the exception
propagates to the caller, no clean view is memoized, and the canonical
table is replaced by the working copy exactly as the transformer left
it — mutations made before the failure are committed, not discarded. -/
theorem failing_transform_commits_working_copy (s : BFState)
    (f : DataFrame → DataFrame) (e : Err) (h : Hooks)
    (h1 : s.clean_data = none) (h2 : s.has_custom_transformer = true)
    (hct : h.custom_transformer = fun df => (f df, .error e)) :
    dataCompute h s = (.error e, { s with all_data := f s.all_data }, ⟨1, 0, 0⟩) := by
  have hts : transformStage h s = (.error e, { s with all_data := f s.all_data }) := by
    simp [transformStage, invokeCustomTransformer, h2, hct]
  simp only [dataCompute, h1, hts]

/-- Claim C1 (witness): the amended statement evaluated on the concrete
failing transformer `ctBoom`. -/
theorem failing_transform_commits_witness :
    dataCompute hooksBoom sBoom =
      (.error (.userError "boom"), { sBoom with all_data := fBoom sBoom.all_data },
       ⟨1, 0, 0⟩) :=
  failing_transform_commits_working_copy sBoom fBoom (.userError "boom") hooksBoom rfl rfl rfl

/-- Claim C2 (counterexample): on a state holding a resolved target and
accumulated additional features, the custom-transformer setter leaves
both in place, refuting the claim that it clears the cached target and
resets the additional-features list. -/
theorem set_custom_transformer_counterexample :
    (setCustomTransformer sC2).outcome_column_cache ≠ none ∧
    (setCustomTransformer sC2).additional_features ≠ [] := by
  decide

/-- Claim C2 (amended): the setter stores the transformer and clears only
the memoized clean view; the cached resolved target, the accumulated
additional features and every other field are left as they were. -/
theorem set_custom_transformer_amended (s : BFState) :
    (setCustomTransformer s).clean_data = none ∧
    (setCustomTransformer s).has_custom_transformer = true ∧
    (setCustomTransformer s).outcome_column_cache = s.outcome_column_cache ∧
    (setCustomTransformer s).additional_features = s.additional_features ∧
    (setCustomTransformer s).all_data = s.all_data ∧
    (setCustomTransformer s).base_feature_columns = s.base_feature_columns ∧
    (setCustomTransformer s).meta_columns = s.meta_columns ∧
    (setCustomTransformer s).feature_suffix = s.feature_suffix ∧
    (setCustomTransformer s).exclude_columns = s.exclude_columns :=
  ⟨rfl, rfl, rfl, rfl, rfl, rfl, rfl, rfl, rfl⟩

/-- Claim C5: target resolution invokes the hook at most once per cache
lifetime (a cached target is returned with zero invocations, a single
call invokes it at most once, and every call leaves the cache filled);
a `None` return yields no target, a non-string non-`None` return fails
with the invalid-target `TypeError`, a string naming an absent column
fails with the missing-column `KeyError`, and a string naming a present
column resolves to the one-element list of that name. -/
theorem target_resolution_contract (s : BFState) (hook : PyVal) :
    (∀ oc, s.outcome_column_cache = some oc →
      createOutcomeColumn hook s = (.ok oc, s, 0)) ∧
    ((createOutcomeColumn hook s).2.1.outcome_column_cache ≠ none) ∧
    ((createOutcomeColumn hook s).2.2 ≤ 1) ∧
    (s.outcome_column_cache = none →
      createOutcomeColumn PyVal.none s =
        (.ok [], { s with outcome_column_cache := some [] }, 1)) ∧
    (s.outcome_column_cache = none →
      createOutcomeColumn PyVal.other s =
        (.error invalidTargetTypeErr, { s with outcome_column_cache := some [] }, 1)) ∧
    (∀ c, s.outcome_column_cache = none → c ∉ s.all_data.cols →
      createOutcomeColumn (PyVal.str c) s =
        (.error (missingTargetErr c), { s with outcome_column_cache := some [] }, 1)) ∧
    (∀ c, s.outcome_column_cache = none → c ∈ s.all_data.cols →
      createOutcomeColumn (PyVal.str c) s =
        (.ok [c], { s with outcome_column_cache := some [c] }, 1)) := by
  refine ⟨fun oc hc => createOutcomeColumn_cached hook s oc hc, ?_, ?_, ?_, ?_, ?_, ?_⟩
  · rcases hc : s.outcome_column_cache with _ | oc0
    · unfold createOutcomeColumn
      rw [hc]
      rcases hook with _ | c | _
      · simp
      · by_cases hm : c ∈ s.all_data.cols <;> simp [hm]
      · simp
    · rw [createOutcomeColumn_cached hook s oc0 hc, hc]
      simp
  · rcases hc : s.outcome_column_cache with _ | oc0
    · rw [createOutcomeColumn_miss_count hook s hc]
    · rw [createOutcomeColumn_cached hook s oc0 hc]
      simp
  · intro hc
    unfold createOutcomeColumn
    rw [hc]
  · intro hc
    unfold createOutcomeColumn
    rw [hc]
  · intro c hc hm
    unfold createOutcomeColumn
    rw [hc]
    simp [hm]
  · intro c hc hm
    unfold createOutcomeColumn
    rw [hc]
    simp [hm]

/-- Claim C5 (witness): the contract evaluated on a fresh concrete view and
a bad hook, a good hook and a cached state. -/
theorem target_resolution_contract_witness :
    (createOutcomeColumn PyVal.other sScen =
      (.error invalidTargetTypeErr, { sScen with outcome_column_cache := some [] }, 1)) ∧
    (createOutcomeColumn (PyVal.str "nonexistent") sScen =
      (.error (missingTargetErr "nonexistent"),
       { sScen with outcome_column_cache := some [] }, 1)) ∧
    (createOutcomeColumn (PyVal.str "y") sScen =
      (.ok ["y"], { sScen with outcome_column_cache := some ["y"] }, 1)) ∧
    (createOutcomeColumn PyVal.none sScen =
      (.ok [], { sScen with outcome_column_cache := some [] }, 1)) ∧
    (createOutcomeColumn (PyVal.str "y") sScenPost = (.ok ["y"], sScenPost, 0)) := by
  refine ⟨?_, ?_, ?_, ?_, ?_⟩
  · exact (target_resolution_contract sScen PyVal.other).2.2.2.2.1 rfl
  · exact (target_resolution_contract sScen (PyVal.str "nonexistent")).2.2.2.2.2.1
      "nonexistent" rfl (by decide)
  · exact (target_resolution_contract sScen (PyVal.str "y")).2.2.2.2.2.2 "y" rfl (by decide)
  · exact (target_resolution_contract sScen PyVal.none).2.2.2.1 rfl
  · exact (target_resolution_contract sScenPost (PyVal.str "y")).1 ["y"] rfl

/-- Claim C6: `raw_feature_columns` is the concatenation of the base and
additional feature names with every excluded name removed, in
concatenation order; `feature_columns` appends the suffix to each
surviving name exactly when the suffix is non-empty and is identical to
`raw_feature_columns` when it is empty. -/
theorem feature_name_resolution (s : BFState) :
    rawFeatureColumns s =
      (s.base_feature_columns ++ s.additional_features).filter
        (fun c => decide (c ∉ s.exclude_columns)) ∧
    (s.feature_suffix ≠ "" →
      featureColumns s = (rawFeatureColumns s).map (fun c => c ++ s.feature_suffix)) ∧
    (s.feature_suffix = "" → featureColumns s = rawFeatureColumns s) := by
  refine ⟨?_, ?_, ?_⟩
  · simp only [rawFeatureColumns]
    by_cases he : s.exclude_columns.isEmpty
    · rw [if_pos he]
      have h0 : s.exclude_columns = [] := by simpa using he
      rw [h0]
      simp
    · rw [if_neg he]
  · intro hs
    simp only [featureColumns]
    rw [if_neg hs]
  · intro hs
    simp only [featureColumns]
    rw [if_pos hs]

/-- Claim C6 (witness): name resolution evaluated on the concrete scenario
view with suffix `_a`. -/
theorem feature_name_resolution_witness :
    rawFeatureColumns sScen = ["f1", "f2", "f3", "f4"] ∧
    featureColumns sScen = ["f1_a", "f2_a", "f3_a", "f4_a"] := by
  have h := feature_name_resolution sScen
  exact ⟨h.1.trans (by decide), (h.2.1 (by decide)).trans (by decide)⟩

/-- Claim C9: constructing a view over a table missing one of the requested
base-feature or meta names fails with the missing-column `KeyError`
naming a missing column, printing the full list of available columns
for diagnostics; no pipeline stage hook is involved (construction does
not receive the hooks at all). -/
theorem construction_missing_column (df : DataFrame) (fc : List String) (sfx : String)
    (mc ec : List String)
    (hmiss : ∃ x ∈ fc ++ mc, x ∉ df.cols) :
    ∃ x, x ∉ df.cols ∧ (x ∈ fc ∨ x ∈ mc) ∧
      initBF (.frame df) fc sfx mc ec =
        (.error (.keyError (missingColMsg x)), some df.cols) := by
  rcases hf : fc.find? (fun c => decide (c ∉ df.cols)) with _ | c
  · rcases hm : mc.find? (fun c => decide (c ∉ df.cols)) with _ | c
    · exfalso
      obtain ⟨x, hx, hxn⟩ := hmiss
      rcases List.mem_append.mp hx with hx1 | hx1
      · have := List.find?_eq_none.mp hf x hx1
        simp [hxn] at this
      · have := List.find?_eq_none.mp hm x hx1
        simp [hxn] at this
    · refine ⟨c, ?_, Or.inr (List.mem_of_find?_eq_some hm), ?_⟩
      · have := List.find?_some hm
        simpa using this
      · simp only [initBF, checkColumns, hf, hm]
  · refine ⟨c, ?_, Or.inl (List.mem_of_find?_eq_some hf), ?_⟩
    · have := List.find?_some hf
      simpa using this
    · simp only [initBF, checkColumns, hf]

/-- Claim C9 (witness): construction over the scenario table with a
nonexistent base feature name. -/
theorem construction_missing_column_witness :
    ∃ x, x ∉ dfScen.cols ∧ (x ∈ ["f1", "nope"] ∨ x ∈ ([] : List String)) ∧
      initBF (.frame dfScen) ["f1", "nope"] "" [] [] =
        (.error (.keyError (missingColMsg x)), some dfScen.cols) :=
  construction_missing_column dfScen ["f1", "nope"] "" [] []
    ⟨"nope", by decide, by decide⟩

/-- Claim C10: a target hook that makes resolution raise (non-string return
or absent column) leaves the cache holding the empty list, so every
later resolution returns the empty list with no further hook invocation
and no error. -/
theorem failed_target_cached_empty (s : BFState) (hook : PyVal)
    (h0 : s.outcome_column_cache = none)
    (hbad : hook = PyVal.other ∨ ∃ c, hook = PyVal.str c ∧ c ∉ s.all_data.cols) :
    ∃ e, createOutcomeColumn hook s =
        (.error e, { s with outcome_column_cache := some [] }, 1) ∧
      createOutcomeColumn hook { s with outcome_column_cache := some [] } =
        (.ok [], { s with outcome_column_cache := some [] }, 0) := by
  have h2 : createOutcomeColumn hook { s with outcome_column_cache := some [] } =
      (.ok [], { s with outcome_column_cache := some [] }, 0) :=
    createOutcomeColumn_cached hook _ [] rfl
  rcases hbad with hb | ⟨c, hb, hc⟩
  · subst hb
    refine ⟨invalidTargetTypeErr, ?_, h2⟩
    unfold createOutcomeColumn
    rw [h0]
  · subst hb
    refine ⟨missingTargetErr c, ?_, h2⟩
    unfold createOutcomeColumn
    rw [h0]
    simp [hc]

/-- Claim C10 (witness): the failed-then-cached behavior on the concrete
scenario view with a non-string hook. -/
theorem failed_target_cached_empty_witness :
    ∃ e, createOutcomeColumn PyVal.other sScen =
        (.error e, { sScen with outcome_column_cache := some [] }, 1) ∧
      createOutcomeColumn PyVal.other { sScen with outcome_column_cache := some [] } =
        (.ok [], { sScen with outcome_column_cache := some [] }, 0) :=
  failed_target_cached_empty sScen PyVal.other rfl (Or.inl rfl)

/-- Claim C8: from a fresh view, a successful first access to the
materialized data runs the transform, impute and target hooks exactly
once each, and a second access returns the identical memoized view with
zero hook invocations and an unchanged state. -/
theorem pipeline_runs_once_and_memoizes (h : Hooks) (s s2 : BFState) (cd : DataFrame)
    (c : Counts) (h1 : s.clean_data = none) (h2 : s.outcome_column_cache = none)
    (heq : dataCompute h s = (.ok cd, s2, c)) :
    c = ⟨1, 1, 1⟩ ∧ dataCompute h s2 = (.ok cd, s2, ⟨0, 0, 0⟩) := by
  obtain ⟨oc, tc, hclean, hcache, hc, hcols, hfresh⟩ :=
    dataCompute_ok_anatomy h s s2 cd c h1 heq
  obtain ⟨htc, hlen⟩ := hfresh h2
  subst htc
  exact ⟨hc, dataCompute_cached h s2 cd hclean⟩

/-- Claim C8 (witness): the scenario pipeline runs its hooks once and the
second access is a pure cache hit. -/
theorem pipeline_runs_once_and_memoizes_witness :
    (⟨1, 1, 1⟩ : Counts) = ⟨1, 1, 1⟩ ∧
      dataCompute hooksScen sScenPost = (.ok cleanScen, sScenPost, ⟨0, 0, 0⟩) :=
  pipeline_runs_once_and_memoizes hooksScen sScen sScenPost cleanScen ⟨1, 1, 1⟩
    rfl rfl (by decide)

/-- Claim C7: a successful pipeline run materializes a clean view whose
columns are exactly `meta_columns ++ feature_columns ++ target` (zero
or one target name) in that order, and the rename dictionary maps
exactly the names in `raw_feature_columns` to `name ++ suffix`,
touching no other name. -/
theorem clean_view_columns (h : Hooks) (s s2 : BFState) (cd : DataFrame) (c : Counts)
    (h1 : s.clean_data = none) (h2 : s.outcome_column_cache = none)
    (heq : dataCompute h s = (.ok cd, s2, c)) :
    ∃ oc, s2.outcome_column_cache = some oc ∧ oc.length ≤ 1 ∧
      cd.cols = s2.meta_columns ++ featureColumns s2 ++ oc ∧
      (∀ x ∈ rawFeatureColumns s2,
        applyMapper ((rawFeatureColumns s2).zip (featureColumns s2)) x =
          x ++ s2.feature_suffix) ∧
      (∀ x, x ∉ rawFeatureColumns s2 →
        applyMapper ((rawFeatureColumns s2).zip (featureColumns s2)) x = x) := by
  obtain ⟨oc, tc, hclean, hcache, hc, hcols, hfresh⟩ :=
    dataCompute_ok_anatomy h s s2 cd c h1 heq
  obtain ⟨htc, hlen⟩ := hfresh h2
  have hid : (rawFeatureColumns s2).zip (rawFeatureColumns s2) =
      (rawFeatureColumns s2).zip ((rawFeatureColumns s2).map id) := by
    rw [List.map_id]
  refine ⟨oc, hcache, hlen, hcols, ?_, ?_⟩
  · intro x hx
    by_cases hs : s2.feature_suffix = ""
    · have hfc : featureColumns s2 = rawFeatureColumns s2 := by
        simp only [featureColumns]
        rw [if_pos hs]
      rw [hfc, hid, applyMapper_zip, if_pos hx, hs, String.append_empty]
      rfl
    · have hfc : featureColumns s2 =
          (rawFeatureColumns s2).map (fun c => c ++ s2.feature_suffix) := by
        simp only [featureColumns]
        rw [if_neg hs]
      rw [hfc, applyMapper_zip, if_pos hx]
  · intro x hx
    by_cases hs : s2.feature_suffix = ""
    · have hfc : featureColumns s2 = rawFeatureColumns s2 := by
        simp only [featureColumns]
        rw [if_pos hs]
      rw [hfc, hid, applyMapper_zip, if_neg hx]
    · have hfc : featureColumns s2 =
          (rawFeatureColumns s2).map (fun c => c ++ s2.feature_suffix) := by
        simp only [featureColumns]
        rw [if_neg hs]
      rw [hfc, applyMapper_zip, if_neg hx]

/-- Claim C7 (witness): the scenario pipeline materializes the ordered
columns of the specification scenario and the mapper suffixes exactly
the raw feature names. -/
theorem clean_view_columns_witness :
    ∃ oc, sScenPost.outcome_column_cache = some oc ∧ oc.length ≤ 1 ∧
      cleanScen.cols = sScenPost.meta_columns ++ featureColumns sScenPost ++ oc ∧
      (∀ x ∈ rawFeatureColumns sScenPost,
        applyMapper ((rawFeatureColumns sScenPost).zip (featureColumns sScenPost)) x =
          x ++ sScenPost.feature_suffix) ∧
      (∀ x, x ∉ rawFeatureColumns sScenPost →
        applyMapper ((rawFeatureColumns sScenPost).zip (featureColumns sScenPost)) x = x) :=
  clean_view_columns hooksScen sScen sScenPost cleanScen ⟨1, 1, 1⟩ rfl rfl (by decide)

/-- Materialized one-feature view used by the composition witnesses:
meta `m`, feature `f1`, target `y`. -/
def sAdd1 : BFState :=
  { base_feature_columns := ["f1"]
    feature_suffix := ""
    meta_columns := ["m"]
    exclude_columns := []
    outcome_column_cache := some ["y"]
    has_custom_transformer := false
    all_data := { cols := ["m", "f1", "y"], rows := [[1, 10, 0]] }
    additional_features := []
    clean_data := some { cols := ["m", "f1", "y"], rows := [[1, 10, 0]] } }

/-- Materialized view with a different meta column `m2`. -/
def sAdd2 : BFState :=
  { sAdd1 with
    base_feature_columns := ["f2"]
    meta_columns := ["m2"]
    all_data := { cols := ["m2", "f2", "y"], rows := [[1, 20, 0]] }
    clean_data := some { cols := ["m2", "f2", "y"], rows := [[1, 20, 0]] } }

/-- Materialized view sharing both the meta column and the feature
name `f1` with `sAdd1`. -/
def sAdd3 : BFState :=
  { sAdd1 with all_data := { cols := ["m", "f1", "y"], rows := [[1, 30, 0]] },
               clean_data := some { cols := ["m", "f1", "y"], rows := [[1, 30, 0]] } }

/-- Materialized two-feature right operand compatible with `sAdd1`:
meta `m`, feature `f2`, same target name `y`. -/
def sAdd4 : BFState :=
  { sAdd1 with
    base_feature_columns := ["f2"]
    all_data := { cols := ["m", "f2", "y"], rows := [[1, 20, 0]] }
    clean_data := some { cols := ["m", "f2", "y"], rows := [[1, 20, 0]] } }

/-- Claim C4: the composition preconditions are checked in source order — a
right operand failing the `isinstance` capability check raises the
composition `TypeError` before anything else; then differing meta-column
sets raise the meta `TypeError`; then overlapping feature-column sets
raise the duplicate-feature `KeyError` (written exactly as the source
set-difference comparison); each failing check yields an error and no
joined view. -/
theorem combine_precondition_order (lh rh : Hooks) (l rs : BFState) (ldf rdf : DataFrame)
    (hl : l.clean_data = some ldf) (hr : rs.clean_data = some rdf) :
    addBF lh rh l .notBaseFeatures = .error typeMismatchCompositionErr ∧
    (l.meta_columns.toFinset ≠ rs.meta_columns.toFinset →
      addBF lh rh l (.ofBaseFeatures rs) = .error incompatibleMetaErr) ∧
    (l.meta_columns.toFinset = rs.meta_columns.toFinset →
      (featureColumns l).toFinset \ (featureColumns rs).toFinset ≠
        (featureColumns l).toFinset →
      addBF lh rh l (.ofBaseFeatures rs) = .error duplicateFeatureErr) := by
  have hdl := dataCompute_cached lh l ldf hl
  have hdr := dataCompute_cached rh rs rdf hr
  refine ⟨rfl, ?_, ?_⟩
  · intro hm
    simp only [addBF, hdl, hdr]
    rw [if_pos hm]
  · intro hm hdup
    simp only [addBF, hdl, hdr]
    rw [if_neg (not_not_intro hm), if_pos hdup]

/-- Claim C4 (witness): the three precondition failures on concrete
materialized views. -/
theorem combine_precondition_order_witness :
    addBF defaultHooks defaultHooks sAdd1 .notBaseFeatures =
      .error typeMismatchCompositionErr ∧
    addBF defaultHooks defaultHooks sAdd1 (.ofBaseFeatures sAdd2) =
      .error incompatibleMetaErr ∧
    addBF defaultHooks defaultHooks sAdd1 (.ofBaseFeatures sAdd3) =
      .error duplicateFeatureErr := by
  have h12 := combine_precondition_order defaultHooks defaultHooks sAdd1 sAdd2 _ _ rfl rfl
  have h13 := combine_precondition_order defaultHooks defaultHooks sAdd1 sAdd3 _ _ rfl rfl
  exact ⟨h12.1, h12.2.1 (by decide), h13.2.2 (by decide) (by decide)⟩

/-- Claim C3 (counterexample): two feature views with equal meta-column sets
and disjoint feature-column sets whose targets resolve to different
names (`y` on the left, `z` on the right).  The join key
`left.meta_columns ++ left.outcome_column` contains `y`, which is
absent from the right table, so the merge raises `KeyError` and combine
fails — refuting the claim that combine succeeds for every such pair
even when the right operand defines its own target. -/
theorem combine_distinct_targets_counterexample :
    ((dataCompute hooksScen lC3).2.1).meta_columns.toFinset =
      ((dataCompute hooksZ rC3).2.1).meta_columns.toFinset ∧
    (featureColumns ((dataCompute hooksScen lC3).2.1)).toFinset \
        (featureColumns ((dataCompute hooksZ rC3).2.1)).toFinset =
      (featureColumns ((dataCompute hooksScen lC3).2.1)).toFinset ∧
    addBF hooksScen hooksZ lC3 (.ofBaseFeatures rC3) = .error mergeKeyErr := by
  decide

/-- Claim C3 (amended): combine on two materialized views with equal
meta-column sets, disjoint feature-column sets and the same resolved
target list succeeds; the result concatenates the feature columns (left
block first, length is the sum), copies the left meta columns, keeps
the left resolved target (the right one is discarded), and wraps the
inner equality join of the two materialized tables on the key
`left.meta_columns ++ left.outcome_column`. -/
theorem combine_disjoint_views (lh rh : Hooks) (l rs : BFState) (ldf rdf : DataFrame)
    (loc : List String)
    (hlc : l.clean_data = some ldf) (hrc : rs.clean_data = some rdf)
    (hlo : l.outcome_column_cache = some loc)
    (hsl : ldf.cols = l.meta_columns ++ featureColumns l ++ loc)
    (hsr : rdf.cols = rs.meta_columns ++ featureColumns rs ++ loc)
    (hnl : ldf.cols.Nodup) (hnr : rdf.cols.Nodup)
    (hmeta : l.meta_columns.toFinset = rs.meta_columns.toFinset)
    (hdisj : (featureColumns l).toFinset \ (featureColumns rs).toFinset =
      (featureColumns l).toFinset) :
    ∃ res merged,
      addBF lh rh l (.ofBaseFeatures rs) = .ok res ∧
      mergeInner ldf rdf (l.meta_columns ++ loc) = .ok merged ∧
      res.all_data = merged ∧
      merged.cols = ldf.cols ++ featureColumns rs ∧
      featureColumns res = featureColumns l ++ featureColumns rs ∧
      (featureColumns res).length = (featureColumns l).length + (featureColumns rs).length ∧
      res.meta_columns = l.meta_columns ∧
      res.outcome_column_cache = some loc ∧
      (∀ hk : PyVal, createOutcomeColumn hk res = (.ok loc, res, 0)) := by
  -- membership is the same in both meta lists
  have hmem_meta : ∀ x, x ∈ l.meta_columns ↔ x ∈ rs.meta_columns := by
    intro x
    rw [← List.mem_toFinset, hmeta, List.mem_toFinset]
  -- the feature lists are disjoint
  have hdisjF : ∀ x ∈ featureColumns l, x ∉ featureColumns rs := by
    have hd : Disjoint (featureColumns l).toFinset (featureColumns rs).toFinset :=
      Finset.sdiff_eq_self_iff_disjoint.mp hdisj
    intro x hx hx2
    exact (Finset.disjoint_left.mp hd (List.mem_toFinset.mpr hx)) (List.mem_toFinset.mpr hx2)
  -- decompose the left nodup shape
  rw [hsl] at hnl
  have hl1 := List.nodup_append.mp hnl
  have hl2 := List.nodup_append.mp hl1.1
  have dmfL : ∀ x ∈ featureColumns l, x ∉ l.meta_columns := fun x hx hm => hl2.2.2 hm hx
  have dflL : ∀ x ∈ featureColumns l, x ∉ loc := fun x hx hloc =>
    hl1.2.2 (List.mem_append.mpr (Or.inr hx)) hloc
  -- decompose the right nodup shape
  rw [hsr] at hnr
  have hr1 := List.nodup_append.mp hnr
  have hr2 := List.nodup_append.mp hr1.1
  have dmfR : ∀ x ∈ featureColumns rs, x ∉ rs.meta_columns := fun x hx hm => hr2.2.2 hm hx
  have dflR : ∀ x ∈ featureColumns rs, x ∉ loc := fun x hx hloc =>
    hr1.2.2 (List.mem_append.mpr (Or.inr hx)) hloc
  -- the join key is present in both tables
  have hkey_l : ∀ c ∈ l.meta_columns ++ loc, c ∈ ldf.cols := by
    intro c hc
    rw [hsl]
    rcases List.mem_append.mp hc with h | h
    · exact List.mem_append.mpr (Or.inl (List.mem_append.mpr (Or.inl h)))
    · exact List.mem_append.mpr (Or.inr h)
  have hkey_r : ∀ c ∈ l.meta_columns ++ loc, c ∈ rdf.cols := by
    intro c hc
    rw [hsr]
    rcases List.mem_append.mp hc with h | h
    · exact List.mem_append.mpr (Or.inl (List.mem_append.mpr (Or.inl ((hmem_meta c).mp h))))
    · exact List.mem_append.mpr (Or.inr h)
  -- no left column collides: left columns are key columns or left features
  have hlcols : ldf.cols.map
      (fun c => if c ∉ (l.meta_columns ++ loc) ∧ c ∈ rdf.cols then c ++ "_x" else c) =
      ldf.cols := by
    have hstep : ∀ c ∈ ldf.cols,
        (if c ∉ (l.meta_columns ++ loc) ∧ c ∈ rdf.cols then c ++ "_x" else c) = c := by
      intro c hc
      rw [hsl] at hc
      rcases List.mem_append.mp hc with h | h
      · rcases List.mem_append.mp h with h1 | h1
        · exact if_neg (fun hcontra => hcontra.1 (List.mem_append.mpr (Or.inl h1)))
        · refine if_neg (fun hcontra => ?_)
          have h2 := hcontra.2
          rw [hsr] at h2
          rcases List.mem_append.mp h2 with h3 | h3
          · rcases List.mem_append.mp h3 with h4 | h4
            · exact dmfL c h1 ((hmem_meta c).mpr h4)
            · exact hdisjF c h1 h4
          · exact dflL c h1 h3
      · exact if_neg (fun hcontra => hcontra.1 (List.mem_append.mpr (Or.inr h)))
    rw [List.map_congr_left hstep, List.map_id']
  -- the non-key right columns are exactly the right features
  have hrnk : rdf.cols.filter (fun c => decide (c ∉ (l.meta_columns ++ loc))) =
      featureColumns rs := by
    rw [hsr, List.filter_append, List.filter_append]
    have hm0 : (rs.meta_columns).filter (fun c => decide (c ∉ (l.meta_columns ++ loc))) = [] := by
      rw [List.filter_eq_nil_iff]
      intro a ha
      simp only [decide_eq_true_eq, not_not]
      exact List.mem_append.mpr (Or.inl ((hmem_meta a).mpr ha))
    have hf0 : (featureColumns rs).filter
        (fun c => decide (c ∉ (l.meta_columns ++ loc))) = featureColumns rs := by
      rw [List.filter_eq_self]
      intro a ha
      simp only [decide_eq_true_eq]
      intro hk
      rcases List.mem_append.mp hk with h | h
      · exact dmfR a ha ((hmem_meta a).mp h)
      · exact dflR a ha h
    have hl0 : loc.filter (fun c => decide (c ∉ (l.meta_columns ++ loc))) = [] := by
      rw [List.filter_eq_nil_iff]
      intro a ha
      simp only [decide_eq_true_eq, not_not]
      exact List.mem_append.mpr (Or.inr ha)
    rw [hm0, hf0, hl0]
    simp
  -- no right feature collides with a left column
  have hrcols : (featureColumns rs).map
      (fun c => if c ∈ ldf.cols then c ++ "_y" else c) = featureColumns rs := by
    have hstep : ∀ c ∈ featureColumns rs,
        (if c ∈ ldf.cols then c ++ "_y" else c) = c := by
      intro c hc
      refine if_neg (fun hcontra => ?_)
      rw [hsl] at hcontra
      rcases List.mem_append.mp hcontra with h | h
      · rcases List.mem_append.mp h with h1 | h1
        · exact dmfR c hc ((hmem_meta c).mp h1)
        · exact hdisjF c h1 hc
      · exact dflR c hc h
    rw [List.map_congr_left hstep, List.map_id']
  -- the merge succeeds with the expected columns
  obtain ⟨merged, hmerge, hmcols⟩ : ∃ m,
      mergeInner ldf rdf (l.meta_columns ++ loc) = .ok m ∧
      m.cols = ldf.cols ++ featureColumns rs := by
    simp only [mergeInner]
    rw [if_pos ⟨hkey_l, hkey_r⟩]
    refine ⟨_, rfl, ?_⟩
    simp only [hrnk, hlcols, hrcols]
  -- validation of the composed view passes
  have hcheck1 : (featureColumns l ++ featureColumns rs).find?
      (fun c => decide (c ∉ merged.cols)) = none := by
    rw [List.find?_eq_none]
    intro x hx
    simp only [decide_eq_true_eq, not_not]
    rw [hmcols]
    rcases List.mem_append.mp hx with h | h
    · refine List.mem_append.mpr (Or.inl ?_)
      rw [hsl]
      exact List.mem_append.mpr (Or.inl (List.mem_append.mpr (Or.inr h)))
    · exact List.mem_append.mpr (Or.inr h)
  have hcheck2 : (l.meta_columns).find? (fun c => decide (c ∉ merged.cols)) = none := by
    rw [List.find?_eq_none]
    intro x hx
    simp only [decide_eq_true_eq, not_not]
    rw [hmcols]
    refine List.mem_append.mpr (Or.inl ?_)
    rw [hsl]
    exact List.mem_append.mpr (Or.inl (List.mem_append.mpr (Or.inl hx)))
  -- assemble the addition
  have hdl := dataCompute_cached lh l ldf hlc
  have hdr := dataCompute_cached rh rs rdf hrc
  have hoc1 := createOutcomeColumn_cached lh.create_target l loc hlo
  refine ⟨{ base_feature_columns := featureColumns l ++ featureColumns rs
            feature_suffix := ""
            meta_columns := l.meta_columns
            exclude_columns := []
            outcome_column_cache := some loc
            has_custom_transformer := false
            all_data := merged
            additional_features := []
            clean_data := none }, merged, ?_, hmerge, rfl, hmcols, ?_, ?_, rfl, rfl, ?_⟩
  · simp only [addBF, hdl, hdr]
    rw [if_neg (not_not_intro hmeta), if_neg (not_not_intro hdisj)]
    simp only [hoc1, hmerge, initBF, checkColumns, hcheck1, hcheck2, hlo]
  · simp only [featureColumns, rawFeatureColumns]
    simp
  · simp only [featureColumns, rawFeatureColumns]
    simp
  · intro hk
    exact createOutcomeColumn_cached hk _ loc rfl

/-- Claim C3 (witness): composing the concrete compatible views `sAdd1` and
`sAdd4`, which share the target name `y`. -/
theorem combine_disjoint_views_witness :
    ∃ res merged,
      addBF defaultHooks defaultHooks sAdd1 (.ofBaseFeatures sAdd4) = .ok res ∧
      mergeInner { cols := ["m", "f1", "y"], rows := [[1, 10, 0]] }
        { cols := ["m", "f2", "y"], rows := [[1, 20, 0]] }
        (sAdd1.meta_columns ++ ["y"]) = .ok merged ∧
      res.all_data = merged ∧
      merged.cols = ({ cols := ["m", "f1", "y"], rows := [[1, 10, 0]] } : DataFrame).cols ++
        featureColumns sAdd4 ∧
      featureColumns res = featureColumns sAdd1 ++ featureColumns sAdd4 ∧
      (featureColumns res).length =
        (featureColumns sAdd1).length + (featureColumns sAdd4).length ∧
      res.meta_columns = sAdd1.meta_columns ∧
      res.outcome_column_cache = some ["y"] ∧
      (∀ hk : PyVal, createOutcomeColumn hk res = (.ok ["y"], res, 0)) :=
  combine_disjoint_views defaultHooks defaultHooks sAdd1 sAdd4
    { cols := ["m", "f1", "y"], rows := [[1, 10, 0]] }
    { cols := ["m", "f2", "y"], rows := [[1, 20, 0]] } ["y"]
    rfl rfl rfl (by decide) (by decide) (by decide) (by decide) (by decide) (by decide)
